import Mathlib

/-!
Verification development for the automated React-Native deployment pipeline
(scripts/error_analyzer.py, scripts/smart_component_generator.py,
scripts/expo_snack_api.py, scripts/automated_github_deploy.py,
scripts/automated_deployment_pipeline.py, scripts/run_automated_deployment.py).

The Python code is shallowly embedded: pure string manipulation is translated
to functions over `List Char` / `String`, JSON dictionaries to association
lists, the project file tree to an association list from paths to file
contents, and every network / subprocess interaction to an explicit oracle
argument describing the outside world's replies.  Regular-expression searches
(`re.search`, with or without `re.IGNORECASE`) are translated pattern by
pattern into explicit leftmost-match scanners.
-/

/-! Character and substring utilities mirroring the Python string operations. -/

/-- Case-insensitive character comparison, as `re.IGNORECASE` compares ASCII. -/
def lowEqCh (a b : Char) : Bool := a.toLower == b.toLower

/-- The pattern characters match at the head of the text, case-insensitively. -/
def litAtCI : List Char → List Char → Bool
  | [], _ => true
  | _ :: _, [] => false
  | p :: ps, c :: cs => lowEqCh p c && litAtCI ps cs

/-- The pattern characters match at the head of the text, case-sensitively. -/
def litAtCS : List Char → List Char → Bool
  | [], _ => true
  | _ :: _, [] => false
  | p :: ps, c :: cs => p == c && litAtCS ps cs

/-- Case-insensitive substring search (`re.search` of a literal pattern). -/
def containsCI (lit : List Char) : List Char → Bool
  | [] => litAtCI lit []
  | c :: cs => litAtCI lit (c :: cs) || containsCI lit cs

/-- Case-sensitive substring containment (Python's `in` on strings). -/
def containsCS (lit : List Char) : List Char → Bool
  | [] => litAtCS lit []
  | c :: cs => litAtCS lit (c :: cs) || containsCS lit cs

/-- The apostrophe character. -/
def squote : Char := Char.ofNat 39

/-- A character the regex class consisting of an apostrophe and a double quote accepts. -/
def isQuoteCh (c : Char) : Bool := c == squote || c == '"'

/-- Match the tail of a pattern of the shape quote, `[^'"]+` captured, quote,
then a literal `post`, at the head of the text.  The capture is forced: the
captured run may not contain a quote, so it is exactly the maximal quote-free
run after the opening quote, and the character after it must close it. -/
def captureQuotedThenCI (post : List Char) : List Char → Option (List Char)
  | [] => none
  | c :: rest =>
    if isQuoteCh c then
      let run := rest.takeWhile (fun d => !(isQuoteCh d))
      match rest.drop run.length with
      | [] => none
      | d :: rest2 =>
        if !run.isEmpty && isQuoteCh d && litAtCI post rest2 then some run else none
    else none

/-- Leftmost `re.search` (IGNORECASE) of a pattern literal-prefix, quoted
capture group, literal-suffix; returns the capture group. -/
def searchQuotedCI (pre post : List Char) : List Char → Option (List Char)
  | [] => none
  | c :: cs =>
    if litAtCI pre (c :: cs) then
      match captureQuotedThenCI post ((c :: cs).drop pre.length) with
      | some r => some r
      | none => searchQuotedCI pre post cs
    else searchQuotedCI pre post cs

/-- Leftmost `re.search` (IGNORECASE) of a literal followed by `(.+)`: the
dot does not match a newline, so at least one non-newline character must
follow the literal. -/
def litThenAnyCI (lit : List Char) : List Char → Bool
  | [] => false
  | c :: cs =>
    (litAtCI lit (c :: cs) &&
      (match (c :: cs).drop lit.length with
       | d :: _ => !(d == '\n')
       | [] => false)) || litThenAnyCI lit cs

/-- The literal `b` occurs after zero or more non-newline characters
(the `.*` glue of a two-literal pattern cannot cross a newline). -/
def beforeNlCI (b : List Char) : List Char → Bool
  | [] => litAtCI b []
  | c :: cs => litAtCI b (c :: cs) || (!(c == '\n') && beforeNlCI b cs)

/-- Leftmost `re.search` (IGNORECASE) of a pattern of the shape literal `a`,
`.*`, literal `b`. -/
def twoLitsCI (a b : List Char) : List Char → Bool
  | [] => false
  | c :: cs => (litAtCI a (c :: cs) && beforeNlCI b ((c :: cs).drop a.length)) || twoLitsCI a b cs

/-- Match quote `'`, `[^']+` captured, quote `'` at the head of the text
(case-sensitive single-quote capture used on sandbox log lines). -/
def captureSQuotedCS : List Char → Option (List Char)
  | [] => none
  | c :: rest =>
    if c == squote then
      let run := rest.takeWhile (fun d => !(d == squote))
      match rest.drop run.length with
      | [] => none
      | d :: _ => if !run.isEmpty && d == squote then some run else none
    else none

/-- Leftmost case-sensitive `re.search` of a literal prefix followed by a
single-quoted capture group. -/
def searchSQuotedCS (pre : List Char) : List Char → Option (List Char)
  | [] => none
  | c :: cs =>
    if litAtCS pre (c :: cs) then
      match captureSQuotedCS ((c :: cs).drop pre.length) with
      | some r => some r
      | none => searchSQuotedCS pre cs
    else searchSQuotedCS pre cs

/-- Whitespace as Python's `str.strip` removes it (the ASCII part). -/
def isPyWs (c : Char) : Bool :=
  c == ' ' || c == '\t' || c == '\n' || c == '\r' || c == Char.ofNat 11 || c == Char.ofNat 12

/-- Python's `str.strip()`. -/
def pyStrip (s : List Char) : List Char :=
  ((s.dropWhile isPyWs).reverse.dropWhile isPyWs).reverse

/-- Python's `str.lower()` (the ASCII part, all that the scanned texts use). -/
def lowerCh (s : List Char) : List Char := s.map Char.toLower

/-- Python's `os.path.basename` on the slash-separated paths the scripts build. -/
def basenameCh (s : List Char) : List Char :=
  (s.reverse.takeWhile (fun c => !(c == '/'))).reverse

/-- Python's `os.path.dirname` on the slash-separated relative module paths the
scripts build (empty when the path has no slash). -/
def dirnameCh (s : List Char) : List Char :=
  match s.reverse.dropWhile (fun c => !(c == '/')) with
  | [] => []
  | _ :: rest => rest.reverse

/-- Python's `str.endswith` (used only with the literal ".js"). -/
def endsWithCS (suffix s : List Char) : Bool := litAtCS suffix.reverse s.reverse

/-- Association-list lookup: Python `dict.get` / `key in dict`. -/
def getA {α : Type} (l : List (String × α)) (k : String) : Option α :=
  match l with
  | [] => none
  | (k1, v1) :: rest => if k1 == k then some v1 else getA rest k

/-- Association-list update: Python `dict[key] = value` (an existing key keeps
its position, a new key is appended, as insertion-ordered dicts do). -/
def setA {α : Type} (k : String) (v : α) : List (String × α) → List (String × α)
  | [] => [(k, v)]
  | (k1, v1) :: rest => if k1 == k then (k, v) :: rest else (k1, v1) :: setA k v rest

/-- Python `dict.update`: set every key of `new` in `old`, in order. -/
def updateA {α : Type} (old new : List (String × α)) : List (String × α) :=
  new.foldl (fun acc kv => setA kv.1 kv.2 acc) old

/-- Python `str(x)` applied to an optional string (`str(None)` is "None"),
as f-strings interpolate `error.missing_module`. -/
def optStr : Option String → String
  | some s => s
  | none => "None"

/-! Error classifier: scripts/error_analyzer.py, class ErrorParser. -/

/-- Enum ErrorType of error_analyzer.py. -/
inductive ErrorType where
  | missing_module
  | missing_component
  | import_error
  | syntax_error
  | navigation_error
  | dependency_error
  | configuration_error
  | unknown_error
deriving DecidableEq

/-- The `.value` string of each ErrorType member. -/
def errorTypeValue : ErrorType → String
  | .missing_module => "missing_module"
  | .missing_component => "missing_component"
  | .import_error => "import_error"
  | .syntax_error => "syntax_error"
  | .navigation_error => "navigation_error"
  | .dependency_error => "dependency_error"
  | .configuration_error => "configuration_error"
  | .unknown_error => "unknown_error"

/-- Dataclass ParsedError of error_analyzer.py. -/
structure ParsedError where
  type : ErrorType
  message : String
  file_path : Option String := none
  line_number : Option Nat := none
  missing_module : Option String := none
  suggested_fix : Option String := none
  auto_fixable : Bool := false
deriving DecidableEq

/-- The three MISSING_MODULE patterns of ErrorParser.error_patterns, tried in
order; the capture group is the quoted module path. -/
def missingModuleCapture (s : List Char) : Option (List Char) :=
  match searchQuotedCI "Unable to resolve module ".data [] s with
  | some r => some r
  | none =>
    match searchQuotedCI "Module not found: Error: Can't resolve ".data [] s with
    | some r => some r
    | none => searchQuotedCI "Cannot resolve dependency ".data [] s

/-- The three IMPORT_ERROR patterns (only whether one matches is consumed). -/
def importErrorHit (s : List Char) : Bool :=
  containsCI "SyntaxError: Cannot use import statement outside a module".data s
  || litThenAnyCI "Import error: ".data s
  || (searchQuotedCI "Failed to import ".data [] s).isSome

/-- The four NAVIGATION_ERROR patterns. -/
def navigationErrorHit (s : List Char) : Bool :=
  twoLitsCI "NavigationContainer".data "not found".data s
  || twoLitsCI "@react-navigation".data "not found".data s
  || twoLitsCI "createStackNavigator".data "not found".data s
  || twoLitsCI "Navigation".data "is not defined".data s

/-- The three SYNTAX_ERROR patterns. -/
def syntaxErrorHit (s : List Char) : Bool :=
  litThenAnyCI "SyntaxError: ".data s
  || litThenAnyCI "Unexpected token ".data s
  || litThenAnyCI "Parse error: ".data s

/-- The three DEPENDENCY_ERROR patterns (only whether one matches is consumed:
_create_parsed_error never reads the capture group for this category). -/
def dependencyErrorHit (s : List Char) : Bool :=
  (searchQuotedCI "Package ".data " not found".data s).isSome
  || (searchQuotedCI "Module ".data " is not installed".data s).isSome
  || (searchQuotedCI "Cannot find module ".data [] s).isSome

/-- ErrorParser._parse_single_error composed with ErrorParser._create_parsed_error.
The pattern dictionary is iterated in insertion order (MISSING_MODULE,
IMPORT_ERROR, NAVIGATION_ERROR, SYNTAX_ERROR, DEPENDENCY_ERROR); the first
matching pattern wins.  The MISSING_MODULE branch reclassifies by the shape of
the captured path; IMPORT_ERROR and DEPENDENCY_ERROR have no branch in
_create_parsed_error and fall through to its final not-auto-fixable return. -/
def parseSingleError (message : String) : ParsedError :=
  let mc := pyStrip message.data
  let msg := String.mk mc
  match missingModuleCapture mc with
  | some mmChars =>
    let mm := String.mk mmChars
    if litAtCS "./".data mmChars || litAtCS "../".data mmChars || litAtCS "src/".data mmChars then
      { type := .missing_component, message := msg, missing_module := some mm,
        suggested_fix := some ("Create missing component: " ++ mm), auto_fixable := true }
    else
      { type := .dependency_error, message := msg, missing_module := some mm,
        suggested_fix := some ("Add dependency: " ++ mm), auto_fixable := true }
  | none =>
    if importErrorHit mc then
      { type := .import_error, message := msg, auto_fixable := false }
    else if navigationErrorHit mc then
      { type := .navigation_error, message := msg,
        suggested_fix := some "Add React Navigation dependencies and setup",
        auto_fixable := true }
    else if syntaxErrorHit mc then
      { type := .syntax_error, message := msg,
        suggested_fix := some "Fix syntax errors in code", auto_fixable := false }
    else if dependencyErrorHit mc then
      { type := .dependency_error, message := msg, auto_fixable := false }
    else
      { type := .unknown_error, message := msg, auto_fixable := false }

/-- ErrorParser.parse_errors: one ParsedError per input message, in order. -/
def parseErrors (msgs : List String) : List ParsedError := msgs.map parseSingleError

/-- No pattern of the taxonomy matches the (stripped) message. -/
def matchesNoPattern (message : String) : Bool :=
  let mc := pyStrip message.data
  (missingModuleCapture mc).isNone && !importErrorHit mc && !navigationErrorHit mc
    && !syntaxErrorHit mc && !dependencyErrorHit mc

/-! Fix planner: scripts/error_analyzer.py, ErrorAnalyzer._generate_fix_plan. -/

/-- One step dictionary of the fix plan. -/
structure FixStep where
  step : String
  action : String
  target : Option String
  priority : String
deriving DecidableEq

/-- The create_component step built for an auto-fixable MISSING_COMPONENT error. -/
def mkCreateComponentStep (e : ParsedError) : FixStep :=
  { step := "Create missing component: " ++ optStr e.missing_module,
    action := "create_component", target := e.missing_module, priority := "high" }

/-- The add_dependency step built for an auto-fixable DEPENDENCY_ERROR error. -/
def mkAddDependencyStep (e : ParsedError) : FixStep :=
  { step := "Add dependency: " ++ optStr e.missing_module,
    action := "add_dependency", target := e.missing_module, priority := "medium" }

/-- The fix_navigation step built for an auto-fixable NAVIGATION_ERROR error. -/
def mkFixNavigationStep : FixStep :=
  { step := "Fix navigation setup", action := "fix_navigation",
    target := some "navigation_config", priority := "high" }

/-- The manual_review step built for a not-auto-fixable error. -/
def mkManualReviewStep (e : ParsedError) : FixStep :=
  { step := "Manual fix required: " ++ errorTypeValue e.type,
    action := "manual_review", target := some e.message, priority := "low" }

/-- The if/elif dispatch of the auto-fixable loop of _generate_fix_plan:
auto-fixable errors of other types append no step. -/
def autoStepFor (e : ParsedError) : Option FixStep :=
  if e.type = ErrorType.missing_component then some (mkCreateComponentStep e)
  else if e.type = ErrorType.dependency_error then some (mkAddDependencyStep e)
  else if e.type = ErrorType.navigation_error then some mkFixNavigationStep
  else none

/-- The fix_steps list as accumulated before sorting: one pass over the
auto-fixable errors, then one pass over the remaining errors. -/
def genFixSteps (errors : List ParsedError) : List FixStep :=
  ((errors.filter (fun e => e.auto_fixable)).filterMap autoStepFor)
    ++ ((errors.filter (fun e => !e.auto_fixable)).map mkManualReviewStep)

/-- The sort key `{"high": 3, "medium": 2, "low": 1}[priority]`.  Any other
priority string would raise a KeyError in Python; the generated steps only
carry the three listed strings, so the final branch is unreachable there. -/
def priorityNum (s : FixStep) : Nat :=
  if s.priority = "high" then 3
  else if s.priority = "medium" then 2
  else if s.priority = "low" then 1
  else 0

/-- Stable descending insertion by key: an element moves past exactly the
elements with a strictly larger key. -/
def insertDescBy {α : Type} (key : α → Nat) (x : α) : List α → List α
  | [] => [x]
  | y :: ys => if key x < key y then y :: insertDescBy key x ys else x :: y :: ys

/-- Stable descending sort by key, extensionally the `sorted(..., key=...,
reverse=True)` of Python (Timsort with reverse is documented stable; a stable
descending sort by a fixed key is unique as a function). -/
def sortDescBy {α : Type} (key : α → Nat) : List α → List α
  | [] => []
  | x :: xs => insertDescBy key x (sortDescBy key xs)

/-- ErrorAnalyzer._generate_fix_plan: accumulate steps, then stable-sort by
descending priority. -/
def generateFixPlan (errors : List ParsedError) : List FixStep :=
  sortDescBy priorityNum (genFixSteps errors)

/-! Error analysis report: ErrorAnalyzer.analyze_deployment_errors.  Only the
fields the orchestrator consumes are modelled; `error_categories` and the
floating-point `success_probability` heuristic are read by nothing downstream. -/

/-- Analysis report dictionary (the consumed fields). -/
structure ErrorAnalysis where
  total_errors : Nat
  auto_fixable_errors : Nat
  parsed_errors : List ParsedError
  fix_plan : List FixStep

/-- ErrorAnalyzer.analyze_deployment_errors: extract each raw error's message
(every error dictionary the sandbox layer produces carries a "message" key),
parse, count, and build the fix plan. -/
def analyzeDeploymentErrors (raw : List (String × String)) : ErrorAnalysis :=
  let msgs := raw.map (fun e => e.2)
  let parsed := parseErrors msgs
  { total_errors := parsed.length,
    auto_fixable_errors := (parsed.filter (fun e => e.auto_fixable)).length,
    parsed_errors := parsed,
    fix_plan := generateFixPlan parsed }

/-! Component and dependency patcher: scripts/smart_component_generator.py.
The project's file tree is an association list from full paths to file
contents, enumerated in `os.walk` order; `package.json` is modelled apart as
the parsed dictionary the methods read and write (an absent file is `none`). -/

/-- calculator "header" template of SmartComponentGenerator._get_calculator_templates, transcribed verbatim (the f-string interpolates the component name). -/
def calcHeaderTemplate (name : String) : String :=
  String.join [
    "import React from 'react';\n",
    "import \x7b View, Text, StyleSheet \x7d from 'react-native';\n",
    "\n",
    "const ",
    name,
    " = (\x7b title = \"Calculator\", ...props \x7d) => \x7b\n",
    "  return (\n",
    "    <View style=\x7bstyles.container\x7d>\n",
    "      <Text style=\x7bstyles.title\x7d>",
    "\x7btitle\x7d",
    "</Text>\n",
    "      \x7bprops.children\x7d\n",
    "    </View>\n",
    "  );\n",
    "\x7d;\n",
    "\n",
    "const styles = StyleSheet.create(\x7b\n",
    "  container: \x7b\n",
    "    padding: 20,\n",
    "    paddingTop: 40,\n",
    "    backgroundColor: '#000',\n",
    "    alignItems: 'center',\n",
    "  \x7d,\n",
    "  title: \x7b\n",
    "    fontSize: 24,\n",
    "    fontWeight: 'bold',\n",
    "    color: '#fff',\n",
    "  \x7d,\n",
    "\x7d);\n",
    "\n",
    "export default ",
    name,
    ";\n" ]

/-- calculator "content" template of SmartComponentGenerator._get_calculator_templates, transcribed verbatim (the f-string interpolates the component name). -/
def calcContentTemplate (name : String) : String :=
  String.join [
    "import React, \x7b useState \x7d from 'react';\n",
    "import \x7b View, Text, StyleSheet, TouchableOpacity \x7d from 'react-native';\n",
    "\n",
    "const ",
    name,
    " = (props) => \x7b\n",
    "  const [display, setDisplay] = useState('0');\n",
    "  const [operation, setOperation] = useState(null);\n",
    "  const [waitingForInput, setWaitingForInput] = useState(false);\n",
    "\n",
    "  const numbers = [\n",
    "    ['C', '\u00c2\u00b1', '%', '\u00c3\u00b7'],\n",
    "    ['7', '8', '9', '\u00c3\u2014'],\n",
    "    ['4', '5', '6', '\u00e2\u02c6\u2019'],\n",
    "    ['1', '2', '3', '+'],\n",
    "    ['0', '.', '=']\n",
    "  ];\n",
    "\n",
    "  const handlePress = (value) => \x7b\n",
    "    if (value === 'C') \x7b\n",
    "      setDisplay('0');\n",
    "      setOperation(null);\n",
    "      setWaitingForInput(false);\n",
    "    \x7d else if (['+', '\u00e2\u02c6\u2019', '\u00c3\u2014', '\u00c3\u00b7'].includes(value)) \x7b\n",
    "      setOperation(value);\n",
    "      setWaitingForInput(true);\n",
    "    \x7d else if (value === '=') \x7b\n",
    "      // Perform calculation\n",
    "      setWaitingForInput(true);\n",
    "    \x7d else \x7b\n",
    "      if (waitingForInput) \x7b\n",
    "        setDisplay(value);\n",
    "        setWaitingForInput(false);\n",
    "      \x7d else \x7b\n",
    "        setDisplay(display === '0' ? value : display + value);\n",
    "      \x7d\n",
    "    \x7d\n",
    "  \x7d;\n",
    "\n",
    "  return (\n",
    "    <View style=\x7bstyles.container\x7d>\n",
    "      <View style=\x7bstyles.display\x7d>\n",
    "        <Text style=\x7bstyles.displayText\x7d>",
    "\x7bdisplay\x7d",
    "</Text>\n",
    "      </View>\n",
    "      \n",
    "      <View style=\x7bstyles.buttonContainer\x7d>\n",
    "        \x7bnumbers.map((row, rowIndex) => (\n",
    "          <View key=\x7browIndex\x7d style=\x7bstyles.row\x7d>\n",
    "            \x7brow.map((button) => (\n",
    "              <TouchableOpacity\n",
    "                key=\x7bbutton\x7d\n",
    "                style=\x7b[\n",
    "                  styles.button,\n",
    "                  button === '0' ? styles.zeroButton : null,\n",
    "                  ['\u00c3\u00b7', '\u00c3\u2014', '\u00e2\u02c6\u2019', '+', '='].includes(button) ? styles.operatorButton : null\n",
    "                ]\x7d\n",
    "                onPress=\x7b() => handlePress(button)\x7d\n",
    "              >\n",
    "                <Text style=\x7b[\n",
    "                  styles.buttonText,\n",
    "                  ['\u00c3\u00b7', '\u00c3\u2014', '\u00e2\u02c6\u2019', '+', '='].includes(button) ? styles.operatorText : null\n",
    "                ]\x7d>\n",
    "                  ",
    "\x7bbutton\x7d",
    "\n",
    "                </Text>\n",
    "              </TouchableOpacity>\n",
    "            ))\x7d\n",
    "          </View>\n",
    "        ))\x7d\n",
    "      </View>\n",
    "      \x7bprops.children\x7d\n",
    "    </View>\n",
    "  );\n",
    "\x7d;\n",
    "\n",
    "const styles = StyleSheet.create(\x7b\n",
    "  container: \x7b\n",
    "    flex: 1,\n",
    "    backgroundColor: '#000',\n",
    "  \x7d,\n",
    "  display: \x7b\n",
    "    flex: 1,\n",
    "    justifyContent: 'flex-end',\n",
    "    alignItems: 'flex-end',\n",
    "    padding: 20,\n",
    "    backgroundColor: '#000',\n",
    "  \x7d,\n",
    "  displayText: \x7b\n",
    "    fontSize: 64,\n",
    "    color: '#fff',\n",
    "    fontWeight: '200',\n",
    "  \x7d,\n",
    "  buttonContainer: \x7b\n",
    "    padding: 10,\n",
    "  \x7d,\n",
    "  row: \x7b\n",
    "    flexDirection: 'row',\n",
    "    justifyContent: 'space-between',\n",
    "    marginBottom: 10,\n",
    "  \x7d,\n",
    "  button: \x7b\n",
    "    width: 80,\n",
    "    height: 80,\n",
    "    borderRadius: 40,\n",
    "    backgroundColor: '#333',\n",
    "    justifyContent: 'center',\n",
    "    alignItems: 'center',\n",
    "  \x7d,\n",
    "  zeroButton: \x7b\n",
    "    width: 170,\n",
    "  \x7d,\n",
    "  operatorButton: \x7b\n",
    "    backgroundColor: '#ff9500',\n",
    "  \x7d,\n",
    "  buttonText: \x7b\n",
    "    fontSize: 32,\n",
    "    color: '#fff',\n",
    "    fontWeight: '400',\n",
    "  \x7d,\n",
    "  operatorText: \x7b\n",
    "    color: '#fff',\n",
    "  \x7d,\n",
    "\x7d);\n",
    "\n",
    "export default ",
    name,
    ";\n" ]

/-- todo "todoitem" template of SmartComponentGenerator._get_todo_templates, transcribed verbatim (the f-string interpolates the component name). -/
def todoItemTemplate (name : String) : String :=
  String.join [
    "import React from 'react';\n",
    "import \x7b View, Text, StyleSheet, TouchableOpacity \x7d from 'react-native';\n",
    "\n",
    "const ",
    name,
    " = (\x7b todo, onToggle, onDelete, ...props \x7d) => \x7b\n",
    "  return (\n",
    "    <View style=\x7b[styles.container, todo?.completed && styles.completed]\x7d>\n",
    "      <TouchableOpacity\n",
    "        style=\x7bstyles.textContainer\x7d\n",
    "        onPress=\x7b() => onToggle && onToggle(todo?.id)\x7d\n",
    "      >\n",
    "        <Text style=\x7b[styles.text, todo?.completed && styles.completedText]\x7d>\n",
    "          ",
    "\x7btodo?.text || 'Todo item'\x7d",
    "\n",
    "        </Text>\n",
    "      </TouchableOpacity>\n",
    "      \n",
    "      <TouchableOpacity\n",
    "        style=\x7bstyles.deleteButton\x7d\n",
    "        onPress=\x7b() => onDelete && onDelete(todo?.id)\x7d\n",
    "      >\n",
    "        <Text style=\x7bstyles.deleteText\x7d>\u00c3\u2014</Text>\n",
    "      </TouchableOpacity>\n",
    "      \x7bprops.children\x7d\n",
    "    </View>\n",
    "  );\n",
    "\x7d;\n",
    "\n",
    "const styles = StyleSheet.create(\x7b\n",
    "  container: \x7b\n",
    "    flexDirection: 'row',\n",
    "    alignItems: 'center',\n",
    "    padding: 15,\n",
    "    marginVertical: 5,\n",
    "    backgroundColor: '#fff',\n",
    "    borderRadius: 8,\n",
    "    shadowColor: '#000',\n",
    "    shadowOffset: \x7b width: 0, height: 1 \x7d,\n",
    "    shadowOpacity: 0.2,\n",
    "    shadowRadius: 2,\n",
    "    elevation: 2,\n",
    "  \x7d,\n",
    "  completed: \x7b\n",
    "    backgroundColor: '#f8f9fa',\n",
    "    opacity: 0.7,\n",
    "  \x7d,\n",
    "  textContainer: \x7b\n",
    "    flex: 1,\n",
    "  \x7d,\n",
    "  text: \x7b\n",
    "    fontSize: 16,\n",
    "    color: '#333',\n",
    "  \x7d,\n",
    "  completedText: \x7b\n",
    "    textDecorationLine: 'line-through',\n",
    "    color: '#666',\n",
    "  \x7d,\n",
    "  deleteButton: \x7b\n",
    "    padding: 10,\n",
    "    marginLeft: 10,\n",
    "  \x7d,\n",
    "  deleteText: \x7b\n",
    "    fontSize: 20,\n",
    "    color: '#ff4757',\n",
    "    fontWeight: 'bold',\n",
    "  \x7d,\n",
    "\x7d);\n",
    "\n",
    "export default ",
    name,
    ";\n" ]

/-- todo "todolist" template of SmartComponentGenerator._get_todo_templates, transcribed verbatim (the f-string interpolates the component name). -/
def todoListTemplate (name : String) : String :=
  String.join [
    "import React from 'react';\n",
    "import \x7b View, StyleSheet, ScrollView \x7d from 'react-native';\n",
    "\n",
    "const ",
    name,
    " = (\x7b children, ...props \x7d) => \x7b\n",
    "  return (\n",
    "    <ScrollView style=\x7bstyles.container\x7d contentContainerStyle=\x7bstyles.content\x7d>\n",
    "      \x7bchildren\x7d\n",
    "    </ScrollView>\n",
    "  );\n",
    "\x7d;\n",
    "\n",
    "const styles = StyleSheet.create(\x7b\n",
    "  container: \x7b\n",
    "    flex: 1,\n",
    "    backgroundColor: '#f8f9fa',\n",
    "  \x7d,\n",
    "  content: \x7b\n",
    "    padding: 10,\n",
    "  \x7d,\n",
    "\x7d);\n",
    "\n",
    "export default ",
    name,
    ";\n" ]

/-- weather "weathericon" template of SmartComponentGenerator._get_weather_templates, transcribed verbatim (the f-string interpolates the component name). -/
def weatherIconTemplate (name : String) : String :=
  String.join [
    "import React from 'react';\n",
    "import \x7b View, Text, StyleSheet \x7d from 'react-native';\n",
    "\n",
    "const ",
    name,
    " = (\x7b condition = \"sunny\", size = 48, ...props \x7d) => \x7b\n",
    "  const getWeatherIcon = (condition) => \x7b\n",
    "    const icons = \x7b\n",
    "      sunny: '\u00e2\u02dc\u20ac\u00ef\u00b8',\n",
    "      cloudy: '\u00e2\u02dc\u00ef\u00b8',\n",
    "      rainy: '\u011f\u0178\u0152\u00a7\u00ef\u00b8',\n",
    "      snowy: '\u00e2\u201e\u00ef\u00b8',\n",
    "      stormy: '\u00e2\u203a\u02c6\u00ef\u00b8'\n",
    "    \x7d;\n",
    "    return icons[condition] || '\u011f\u0178\u0152\u00a4\u00ef\u00b8';\n",
    "  \x7d;\n",
    "\n",
    "  return (\n",
    "    <View style=\x7bstyles.container\x7d>\n",
    "      <Text style=\x7b[styles.icon, \x7b fontSize: size \x7d]\x7d>\n",
    "        ",
    "\x7bgetWeatherIcon(condition)\x7d",
    "\n",
    "      </Text>\n",
    "      \x7bprops.children\x7d\n",
    "    </View>\n",
    "  );\n",
    "\x7d;\n",
    "\n",
    "const styles = StyleSheet.create(\x7b\n",
    "  container: \x7b\n",
    "    alignItems: 'center',\n",
    "  \x7d,\n",
    "  icon: \x7b\n",
    "    fontSize: 48,\n",
    "  \x7d,\n",
    "\x7d);\n",
    "\n",
    "export default ",
    name,
    ";\n" ]

/-- weather "temperature" template of SmartComponentGenerator._get_weather_templates, transcribed verbatim (the f-string interpolates the component name). -/
def temperatureTemplate (name : String) : String :=
  String.join [
    "import React from 'react';\n",
    "import \x7b View, Text, StyleSheet \x7d from 'react-native';\n",
    "\n",
    "const ",
    name,
    " = (\x7b temperature = 20, unit = \"\u00c2\u00b0C\", ...props \x7d) => \x7b\n",
    "  return (\n",
    "    <View style=\x7bstyles.container\x7d>\n",
    "      <Text style=\x7bstyles.temperature\x7d>\n",
    "        ",
    "\x7btemperature\x7d\x7bunit\x7d",
    "\n",
    "      </Text>\n",
    "      \x7bprops.children\x7d\n",
    "    </View>\n",
    "  );\n",
    "\x7d;\n",
    "\n",
    "const styles = StyleSheet.create(\x7b\n",
    "  container: \x7b\n",
    "    alignItems: 'center',\n",
    "  \x7d,\n",
    "  temperature: \x7b\n",
    "    fontSize: 48,\n",
    "    fontWeight: 'bold',\n",
    "    color: '#2c3e50',\n",
    "  \x7d,\n",
    "\x7d);\n",
    "\n",
    "export default ",
    name,
    ";\n" ]

/-- SmartComponentGenerator._generate_generic_component, transcribed verbatim (the f-string interpolates the component name). -/
def genericComponentTemplate (name : String) : String :=
  String.join [
    "import React from 'react';\n",
    "import \x7b View, Text, StyleSheet \x7d from 'react-native';\n",
    "\n",
    "const ",
    name,
    " = (props) => \x7b\n",
    "  return (\n",
    "    <View style=\x7bstyles.container\x7d>\n",
    "      <Text style=\x7bstyles.text\x7d>",
    name,
    " Component</Text>\n",
    "      \x7bprops.children\x7d\n",
    "    </View>\n",
    "  );\n",
    "\x7d;\n",
    "\n",
    "const styles = StyleSheet.create(\x7b\n",
    "  container: \x7b\n",
    "    padding: 10,\n",
    "    alignItems: 'center',\n",
    "  \x7d,\n",
    "  text: \x7b\n",
    "    fontSize: 16,\n",
    "    fontWeight: 'bold',\n",
    "  \x7d,\n",
    "\x7d);\n",
    "\n",
    "export default ",
    name,
    ";\n" ]

/-- SmartComponentGenerator._get_navigation_template, transcribed verbatim. -/
def navigationTemplate : String :=
  String.join [
    "import React from 'react';\n",
    "import \x7b NavigationContainer \x7d from '@react-navigation/native';\n",
    "import \x7b createStackNavigator \x7d from '@react-navigation/stack';\n",
    "import \x7b View, Text, StyleSheet \x7d from 'react-native';\n",
    "\n",
    "const Stack = createStackNavigator();\n",
    "\n",
    "const MainScreen = () => \x7b\n",
    "  return (\n",
    "    <View style=\x7bstyles.container\x7d>\n",
    "      <Text style=\x7bstyles.text\x7d>Main Screen</Text>\n",
    "      <Text style=\x7bstyles.subtitle\x7d>Add your app content here</Text>\n",
    "    </View>\n",
    "  );\n",
    "\x7d;\n",
    "\n",
    "const AppNavigator = () => \x7b\n",
    "  return (\n",
    "    <NavigationContainer>\n",
    "      <Stack.Navigator initialRouteName=\"Main\">\n",
    "        <Stack.Screen \n",
    "          name=\"Main\" \n",
    "          component=\x7bMainScreen\x7d\n",
    "          options=\x7b\x7b title: 'App' \x7d\x7d\n",
    "        />\n",
    "      </Stack.Navigator>\n",
    "    </NavigationContainer>\n",
    "  );\n",
    "\x7d;\n",
    "\n",
    "const styles = StyleSheet.create(\x7b\n",
    "  container: \x7b\n",
    "    flex: 1,\n",
    "    justifyContent: 'center',\n",
    "    alignItems: 'center',\n",
    "    backgroundColor: '#f5f5f5',\n",
    "  \x7d,\n",
    "  text: \x7b\n",
    "    fontSize: 24,\n",
    "    fontWeight: 'bold',\n",
    "    marginBottom: 10,\n",
    "  \x7d,\n",
    "  subtitle: \x7b\n",
    "    fontSize: 16,\n",
    "    color: '#666',\n",
    "  \x7d,\n",
    "\x7d);\n",
    "\n",
    "export default AppNavigator;\n" ]

/-- The app_indicators table of SmartComponentGenerator._detect_app_type. -/
def appIndicators : List (String × List String) :=
  [("calculator", ["calculator", "calc", "math", "number", "operation"]),
   ("todo", ["todo", "task", "list", "item", "complete"]),
   ("weather", ["weather", "forecast", "temperature", "location", "climate"])]

/-- Inner loop of _detect_app_type over one file: for each app type in table
order, first the lowercased file content is searched for an indicator, then
the lowercased file name. -/
def fileAppType (contentLower fnameLower : List Char) : List (String × List String) → Option String
  | [] => none
  | (t, inds) :: rest =>
    if inds.any (fun ind => containsCS ind.data contentLower) then some t
    else if inds.any (fun ind => containsCS ind.data fnameLower) then some t
    else fileAppType contentLower fnameLower rest

/-- SmartComponentGenerator._detect_app_type: walk the project files in order,
consider the ".js" ones, return the first app type an indicator hits;
"generic" when none does. -/
def detectAppType : List (String × String) → String
  | [] => "generic"
  | (path, content) :: rest =>
    let fname := basenameCh path.data
    if endsWithCS ".js".data fname then
      match fileAppType (lowerCh content.data) (lowerCh fname) appIndicators with
      | some t => t
      | none => detectAppType rest
    else detectAppType rest

/-- The component_templates dictionary of SmartComponentGenerator.__init__
("generic" maps to the empty template dictionary). -/
def componentTemplates : List (String × List (String × (String → String))) :=
  [("calculator", [("header", calcHeaderTemplate), ("content", calcContentTemplate)]),
   ("todo", [("todoitem", todoItemTemplate), ("todolist", todoListTemplate)]),
   ("weather", [("weathericon", weatherIconTemplate), ("temperature", temperatureTemplate)]),
   ("generic", [])]

/-- Template-key matching loop of _generate_component_content: the first key
that is a substring of the lowercased component name, or of which the
lowercased name is a substring, wins. -/
def findTemplateFor (nameLower : List Char) : List (String × (String → String)) → Option (String → String)
  | [] => none
  | (tn, f) :: rest =>
    if containsCS tn.data nameLower || containsCS nameLower tn.data then some f
    else findTemplateFor nameLower rest

/-- SmartComponentGenerator._generate_component_content. -/
def generateComponentContent (componentName appType : String) : String :=
  let templates := (getA componentTemplates appType).getD []
  match findTemplateFor (lowerCh componentName.data) templates with
  | some f => f componentName
  | none => genericComponentTemplate componentName

/-- SmartComponentGenerator._create_missing_component on the modelled file
tree.  A `None` missing_module raises AttributeError at `startswith` in
Python, which the method's try/except turns into a False result.  Directory
creation is a no-op on the path-keyed tree; writing overwrites in place or
appends a new path. -/
def createMissingComponent (projectPath : String) (fs : List (String × String))
    (e : ParsedError) (appType : String) : Bool × List (String × String) :=
  match e.missing_module with
  | none => (false, fs)
  | some mm =>
    let mp : List Char :=
      if litAtCS "./".data mm.data then mm.data.drop 2
      else if litAtCS "../".data mm.data then mm.data.drop 3
      else if litAtCS "src/".data mm.data then mm.data.drop 4
      else mm.data
    let componentName := String.mk (basenameCh mp)
    let componentDir := String.mk (dirnameCh mp)
    let srcPath := projectPath ++ "/src"
    let fullDir := if componentDir ≠ "" then srcPath ++ "/" ++ componentDir
                   else srcPath ++ "/components"
    let content := generateComponentContent componentName appType
    (true, setA (fullDir ++ "/" ++ componentName ++ ".js") content fs)

/-- Parsed package.json as _add_missing_dependency and
_update_package_dependencies read and write it.  Only the "dependencies" key
is ever touched; the other keys round-trip unchanged through json.load /
json.dump and are not modelled. -/
structure PackageJson where
  dependencies : Option (List (String × String)) := none
deriving DecidableEq

/-- The dependency_versions lookup table of _add_missing_dependency. -/
def dependencyVersions : List (String × String) :=
  [("@react-navigation/native", "^6.0.0"),
   ("@react-navigation/stack", "^6.0.0"),
   ("react-native-screens", "~3.22.0"),
   ("react-native-safe-area-context", "4.6.3"),
   ("react-native-vector-icons", "^10.0.0"),
   ("@react-native-async-storage/async-storage", "^1.19.0")]

/-- SmartComponentGenerator._add_missing_dependency: `none` for the manifest
means package.json does not exist (the method returns False without writing);
a dependency outside the lookup table is not added and the method returns
False; otherwise `setdefault("dependencies", {})[dep] = version` runs and the
file is rewritten.  The dependency argument is `error.missing_module`, which
may be Python None (never a key of the table). -/
def addMissingDependency (pkg : Option PackageJson) (dependency : Option String) :
    Bool × Option PackageJson :=
  match pkg with
  | none => (false, none)
  | some pd =>
    match dependency with
    | none => (false, some pd)
    | some dep =>
      match getA dependencyVersions dep with
      | some v => (true, some { dependencies := some (setA dep v (pd.dependencies.getD [])) })
      | none => (false, some pd)

/-- The nav_deps dictionary of _update_package_dependencies. -/
def navDeps : List (String × String) :=
  [("@react-navigation/native", "^6.0.0"),
   ("@react-navigation/stack", "^6.0.0"),
   ("react-native-screens", "~3.22.0"),
   ("react-native-safe-area-context", "4.6.3")]

/-- SmartComponentGenerator._fix_navigation_setup: create
src/navigation/AppNavigator.js from the navigation template when absent, merge
the navigation dependencies into package.json when that file exists
(_update_package_dependencies's False return for a missing package.json is
ignored), and report True. -/
def fixNavigationSetup (projectPath : String) (fs : List (String × String))
    (pkg : Option PackageJson) :
    Bool × List (String × String) × Option PackageJson :=
  let navFile := projectPath ++ "/src" ++ "/navigation" ++ "/AppNavigator.js"
  let fs2 := match getA fs navFile with
    | some _ => fs
    | none => setA navFile navigationTemplate fs
  let pkg2 := match pkg with
    | none => none
    | some pd => some { dependencies := some (updateA (pd.dependencies.getD []) navDeps) }
  (true, fs2, pkg2)

/-- Loop body of fix_errors_with_components, with the app type fixed by the
single detection done before the loop. -/
def fixErrorsGo (projectPath appType : String) :
    List ParsedError → List (String × Bool) → List (String × String) → Option PackageJson →
    List (String × Bool) × List (String × String) × Option PackageJson
  | [], res, fs, pkg => (res, fs, pkg)
  | e :: rest, res, fs, pkg =>
    if e.auto_fixable && decide (e.type = ErrorType.missing_component) then
      let r := createMissingComponent projectPath fs e appType
      fixErrorsGo projectPath appType rest
        (setA ("create_" ++ optStr e.missing_module) r.1 res) r.2 pkg
    else if e.auto_fixable && decide (e.type = ErrorType.navigation_error) then
      let r := fixNavigationSetup projectPath fs pkg
      fixErrorsGo projectPath appType rest (setA "fix_navigation" r.1 res) r.2.1 r.2.2
    else if e.auto_fixable && decide (e.type = ErrorType.dependency_error) then
      let r := addMissingDependency pkg e.missing_module
      fixErrorsGo projectPath appType rest
        (setA ("add_dep_" ++ optStr e.missing_module) r.1 res) fs r.2
    else fixErrorsGo projectPath appType rest res fs pkg

/-- SmartComponentGenerator.fix_errors_with_components: detect the app type
once, then dispatch each auto-fixable error; the returned dictionary maps fix
identifiers to per-step success. -/
def fixErrorsWithComponents (projectPath : String) (fs : List (String × String))
    (pkg : Option PackageJson) (errors : List ParsedError) :
    List (String × Bool) × List (String × String) × Option PackageJson :=
  fixErrorsGo projectPath (detectAppType fs) errors [] fs pkg

/-! Sandbox poller: scripts/expo_snack_api.py. -/

/-- One status request's outcome, as the world supplies it: an exception
raised while checking, or a response with an HTTP status, the message of each
entry of the response's "errors" list (an absent key is the empty list; the
stored file/line fields are read by nothing downstream), and the message of
each entry of its "logs" list. -/
inductive CheckOutcome where
  | exc (msg : String)
  | resp (status : Nat) (compilationMessages : List String) (logMessages : List String)

/-- ExpoSnackAPI.check_snack_errors on one outcome.  Error entries are
modelled as (type, message) pairs: the extra per-entry fields (file, line,
missing_module) are never read downstream.  A non-200 status yields a single
"api_error" entry; an exception a single "exception" entry; otherwise one
"compilation_error" entry per response error plus one "missing_module" entry
per log line containing "Unable to resolve module" whose single-quoted module
the case-sensitive pattern captures. -/
def checkSnackErrors (o : CheckOutcome) : Bool × List (String × String) :=
  match o with
  | .exc m => (true, [("exception", "Error checking Snack: " ++ m)])
  | .resp status compMsgs logMsgs =>
    if status ≠ 200 then (true, [("api_error", "Failed to fetch Snack: " ++ toString status)])
    else
      let errors := compMsgs.map (fun m => ("compilation_error", m))
        ++ logMsgs.filterMap (fun m =>
            if containsCS "Unable to resolve module".data m.data then
              match searchSQuotedCS "Unable to resolve module ".data m.data with
              | some _ => some ("missing_module", m)
              | none => none
            else none)
      (decide (0 < errors.length), errors)

/-- The synthetic error returned when wait_for_deployment times out. -/
def timeoutError : String × String := ("timeout", "Deployment timeout")

/-- The non-transport errors of a poll: wait_for_deployment's filter dropping
"api_error" entries. -/
def nonApiErrors (errs : List (String × String)) : List (String × String) :=
  errs.filter (fun e => !(e.1 == "api_error"))

/-- Polling loop of ExpoSnackAPI.wait_for_deployment: `n` polls remain
(the k-th poll happens at elapsed time 5k, and the loop runs while the elapsed
time is below the timeout), `i` is the index of the next poll. -/
def waitGo (polls : Nat → Bool × List (String × String)) : Nat → Nat → Bool × List (String × String)
  | 0, _ => (false, [timeoutError])
  | n + 1, i =>
    let p := polls i
    if !p.1 then (true, [])
    else
      let actual := nonApiErrors p.2
      if !actual.isEmpty then (false, actual)
      else waitGo polls n (i + 1)

/-- ExpoSnackAPI.wait_for_deployment: poll every 5 seconds until no errors,
a non-transport error, or the timeout; `(timeout + 4) / 5` polls fit before
the timeout elapses. -/
def waitForDeployment (polls : Nat → Bool × List (String × String)) (timeout : Nat) :
    Bool × List (String × String) :=
  waitGo polls ((timeout + 4) / 5) 0

/-- Result dictionary of ExpoSnackAPI.create_snack_from_github (the keys the
callers read; the "name" and "data" keys are read by nothing downstream). -/
structure SnackResult where
  snack_id : Option String := none
  url : Option String := none
  error : Option String := none
deriving DecidableEq

/-- The POST /snacks outcome when the URL regex matched: an exception, or a
response with an HTTP status and the "id" field of its JSON body.  The GitHub
file fetch only fills the request payload, which nothing downstream reads. -/
inductive SnackCreateOutcome where
  | exc (msg : String)
  | resp (status : Nat) (id : Option String)

/-- Leftmost case-sensitive `re.search` of `github\.com/([^/]+)/([^/]+)`:
the literal "github.com/", then two nonempty slash-free groups divided by a
slash. -/
def githubUrlGroups : List Char → Option (List Char × List Char)
  | [] => none
  | c :: cs =>
    if litAtCS "github.com/".data (c :: cs) then
      let t := (c :: cs).drop 11
      let owner := t.takeWhile (fun d => !(d == '/'))
      match t.drop owner.length with
      | d :: rest =>
        let repo := rest.takeWhile (fun d2 => !(d2 == '/'))
        if !owner.isEmpty && d == '/' && !repo.isEmpty then some (owner, repo)
        else githubUrlGroups cs
      | [] => githubUrlGroups cs
    else githubUrlGroups cs

/-- ExpoSnackAPI.create_snack_from_github: a URL the pattern does not match
fails at once with "Invalid GitHub URL format" and no sandbox is contacted;
otherwise the POST outcome decides, a 200 yielding the snack id and the URL
built from it (`str(None)` when the body has no id). -/
def createSnackFromGithub (githubUrl appName : String) (net : SnackCreateOutcome) :
    Bool × SnackResult :=
  match githubUrlGroups githubUrl.data with
  | none => (false, { error := some "Invalid GitHub URL format" })
  | some _ =>
    match net with
    | .exc m => (false, { error := some ("Exception creating Snack: " ++ m) })
    | .resp status id =>
      if status = 200 then
        (true, { snack_id := id, url := some ("https://snack.expo.dev/" ++ optStr id) })
      else (false, { error := some ("Failed to create Snack: " ++ toString status) })

/-! Remote publisher: scripts/automated_github_deploy.py.  The git and gh
subprocess interactions are the world's business; the orchestrator only reads
the returned (success, dictionary) pair, so the publisher's outcome is an
oracle of the attempt environment.  One concrete outcome matters to the
claims: the early no-changes return. -/

/-- Result dictionary of GitHubDeployer.deploy_to_github (the keys the
callers read). -/
structure GithubResult where
  repository_url : Option String := none
  error : Option String := none
  message : Option String := none
  existing : Bool := false
deriving DecidableEq

/-- The dictionary deploy_to_github returns (with success True) when
`git status --porcelain` reports nothing to commit: it carries no
"repository_url" key. -/
def noChangesResult : GithubResult :=
  { message := some "No changes to commit", existing := true }

/-! Deployment orchestrator: scripts/automated_deployment_pipeline.py,
AutomatedDeploymentPipeline.deploy_project_with_auto_fix.
(EnhancedDeploymentPipeline.deploy_project_with_monitoring in
scripts/run_automated_deployment.py drives the very same stage calls with the
same control flow, adding only logging, so this embedding covers both.) -/

/-- Dataclass DeploymentResult of automated_deployment_pipeline.py (the
fixes_applied dictionary is an association list). -/
structure DeploymentResult where
  success : Bool
  github_url : String := ""
  snack_url : String := ""
  snack_id : String := ""
  errors : List ParsedError := []
  fixes_applied : List (String × Bool) := []
  attempts : Nat := 0
deriving DecidableEq

/-- The world's replies during one deployment attempt: the publisher's
outcome, the sandbox-creation POST outcome, and one status-check outcome per
poll of the wait loop. -/
structure AttemptEnv where
  github : Bool × GithubResult
  snackNet : SnackCreateOutcome
  checkNet : Nat → CheckOutcome

/-- Body of the retry loop of deploy_project_with_auto_fix: `n` attempts
remain, `attempt` is the next attempt number.  A failed publish or sandbox
creation consumes the attempt and retries; a clean sandbox wait breaks with
success; no auto-fixable error or no successful fix breaks with failure;
otherwise the fixes run and the next attempt starts. -/
def deployGo (name projectPath : String) (env : Nat → AttemptEnv) :
    Nat → Nat → DeploymentResult → List (String × String) → Option PackageJson →
    DeploymentResult × List (String × String) × Option PackageJson
  | 0, _, r, fs, pkg => (r, fs, pkg)
  | n + 1, attempt, r, fs, pkg =>
    let r1 := { r with attempts := attempt }
    let g := (env attempt).github
    if !g.1 then deployGo name projectPath env n (attempt + 1) r1 fs pkg
    else
      let r2 := { r1 with github_url := (g.2.repository_url).getD "" }
      let s := createSnackFromGithub r2.github_url name (env attempt).snackNet
      if !s.1 then deployGo name projectPath env n (attempt + 1) r2 fs pkg
      else
        let r3 := { r2 with snack_url := (s.2.url).getD "", snack_id := (s.2.snack_id).getD "" }
        let w := waitForDeployment (fun i => checkSnackErrors ((env attempt).checkNet i)) 60
        if w.1 then ({ r3 with success := true }, fs, pkg)
        else
          let analysis := analyzeDeploymentErrors w.2
          let r4 := { r3 with errors := analysis.parsed_errors }
          if analysis.auto_fixable_errors = 0 then (r4, fs, pkg)
          else
            let fx := fixErrorsWithComponents projectPath fs pkg r4.errors
            let r5 := { r4 with fixes_applied := updateA r4.fixes_applied fx.1 }
            if (fx.1.filter (fun kv => kv.2)).length = 0 then (r5, fx.2.1, fx.2.2)
            else deployGo name projectPath env n (attempt + 1) r5 fx.2.1 fx.2.2

/-- AutomatedDeploymentPipeline.deploy_project_with_auto_fix: run up to
max_retry_attempts attempts starting from the fresh failure result. -/
def deployProjectWithAutoFix (name projectPath : String) (maxRetryAttempts : Nat)
    (env : Nat → AttemptEnv) (fs : List (String × String)) (pkg : Option PackageJson) :
    DeploymentResult × List (String × String) × Option PackageJson :=
  deployGo name projectPath env maxRetryAttempts 1 { success := false } fs pkg

/-! Helper lemmas. -/

/-- Looking a key up after setting it to the value it already has is the
identity on the association list. -/
theorem setA_of_getA {α : Type} (k : String) (v : α) :
    ∀ l : List (String × α), getA l k = some v → setA k v l = l := by
  intro l
  induction l with
  | nil => intro h; simp [getA] at h
  | cons p rest ih =>
    obtain ⟨k1, v1⟩ := p
    intro h
    by_cases hk : k1 == k
    · have hkeq : k1 = k := by simpa using hk
      have hv : v1 = v := by simpa [getA, hk] using h
      simp [setA, hk, hkeq, hv]
    · have h2 : getA rest k = some v := by simpa [getA, hk] using h
      simp [setA, hk, ih h2]

/-- Setting the same key to the same value twice equals setting it once. -/
theorem setA_idem {α : Type} (k : String) (v : α) :
    ∀ l : List (String × α), setA k v (setA k v l) = setA k v l := by
  intro l
  induction l with
  | nil => simp [setA]
  | cons p rest ih =>
    obtain ⟨k1, v1⟩ := p
    by_cases hk : k1 == k
    · simp [setA, hk]
    · simp [setA, hk, ih]

/-- C4, sanity instance: a text no pattern matches. -/
theorem matchesNoPattern_hello : matchesNoPattern "hello world" = true := by decide

/-- C2 counterexample: on the bare-package message the classifier yields a
dependency error that is NOT auto-fixable, refuting the claimed
auto_fixable = true. -/
theorem bare_package_not_auto_fixable_cex :
    (parseSingleError "Cannot find module 'react-native-maps'").type = ErrorType.dependency_error
    ∧ (parseSingleError "Cannot find module 'react-native-maps'").auto_fixable = false
    ∧ ¬((parseSingleError "Cannot find module 'react-native-maps'").auto_fixable = true) := by
  decide

/-- C2 (amended): for the input message "Cannot find module 'react-native-maps'"
the Classifier returns a ParsedError of dependency-error type and not of
missing-component type, but with auto_fixable = false and no captured module:
the DEPENDENCY_ERROR pattern category has no branch in _create_parsed_error,
so the match falls through to the final not-auto-fixable return. -/
theorem bare_package_dependency_error_not_auto_fixable :
    parseSingleError "Cannot find module 'react-native-maps'" =
      { type := ErrorType.dependency_error,
        message := "Cannot find module 'react-native-maps'", auto_fixable := false }
    ∧ (parseSingleError "Cannot find module 'react-native-maps'").type ≠ ErrorType.missing_component := by
  decide

/-- C3: the relative-path message classifies as an auto-fixable missing
component whose missing_module is "./Header". -/
theorem relative_module_missing_component :
    parseSingleError "Unable to resolve module './Header'" =
      { type := ErrorType.missing_component,
        message := "Unable to resolve module './Header'",
        missing_module := some "./Header",
        suggested_fix := some "Create missing component: ./Header",
        auto_fixable := true } := by
  decide

/-- C4: parse_errors is total by construction and returns exactly one
ParsedError per input message in input order, and a message no pattern of the
taxonomy matches parses to an unknown error that is not auto-fixable. -/
theorem parse_errors_total_ordered_unknown (msgs : List String) :
    (parseErrors msgs).length = msgs.length
    ∧ (∀ i : Nat, (parseErrors msgs).get? i = (msgs.get? i).map parseSingleError)
    ∧ (∀ msg : String, matchesNoPattern msg = true →
        parseSingleError msg =
          { type := ErrorType.unknown_error, message := String.mk (pyStrip msg.data),
            auto_fixable := false }) := by
  refine ⟨by simp [parseErrors], fun i => by simp [parseErrors], fun msg h => ?_⟩
  simp only [matchesNoPattern, Bool.and_eq_true, Bool.not_eq_true',
    Option.isNone_iff_eq_none] at h
  obtain ⟨⟨⟨⟨h1, h2⟩, h3⟩, h4⟩, h5⟩ := h
  simp only [parseSingleError, h1, h2, h3, h4, h5, Bool.false_eq_true, if_false]

/-- C8 counterexample: the key "expo" is present in the manifest's
dependencies, yet _add_missing_dependency returns failure for it ("expo" is
not in the fixed version table), refuting the claimed success on every
already-present key.  The manifest is left unchanged. -/
theorem add_dependency_present_key_failure_cex :
    getA (([("expo", "~49.0.0")] : List (String × String))) "expo" = some "~49.0.0"
    ∧ addMissingDependency (some { dependencies := some [("expo", "~49.0.0")] }) (some "expo")
        = (false, some { dependencies := some [("expo", "~49.0.0")] }) := by
  decide

/-- C8 (amended): a dependency outside the fixed version lookup table is
never added — the method fails and the manifest is unchanged — and re-running
add-dependency for a table key already pinned at the table's version succeeds
and leaves the manifest unchanged. -/
theorem add_dependency_table_semantics (m : Option PackageJson) (dep : String) :
    (getA dependencyVersions dep = none → addMissingDependency m (some dep) = (false, m))
    ∧ (∀ (pd : PackageJson) (v : String), m = some pd →
        getA dependencyVersions dep = some v →
        getA (pd.dependencies.getD []) dep = some v →
        addMissingDependency m (some dep) = (true, m)) := by
  constructor
  · intro h
    cases m with
    | none => simp [addMissingDependency]
    | some pd => simp [addMissingDependency, h]
  · intro pd v hm ht hp
    subst hm
    cases hd : pd.dependencies with
    | none => rw [hd] at hp; simp [getA] at hp
    | some deps =>
      rw [hd] at hp
      simp only [Option.getD_some] at hp
      obtain ⟨t⟩ := pd
      simp only at hd
      subst hd
      simp [addMissingDependency, ht, setA_of_getA dep v deps hp]

/-- Inserting an element whose key is at least every key of the list puts it
in front. -/
theorem insertDescBy_front {α : Type} (key : α → Nat) (x : α) :
    ∀ l : List α, (∀ y ∈ l, key y ≤ key x) → insertDescBy key x l = x :: l := by
  intro l h
  cases l with
  | nil => rfl
  | cons y ys =>
    have : ¬(key x < key y) := Nat.not_lt.mpr (h y (by simp))
    simp [insertDescBy, this]

/-- Inserting an element skips a leading block of strictly larger keys. -/
theorem insertDescBy_append {α : Type} (key : α → Nat) (x : α) :
    ∀ (A rest : List α), (∀ a ∈ A, key x < key a) →
      insertDescBy key x (A ++ rest) = A ++ insertDescBy key x rest := by
  intro A
  induction A with
  | nil => intro rest _; rfl
  | cons a A ih =>
    intro rest h
    have ha : key x < key a := h a (by simp)
    simp only [List.cons_append, insertDescBy, ha, if_pos]
    exact congrArg (List.cons a) (ih rest (fun b hb => h b (by simp [hb])))

/-- On a list whose keys all lie in {1, 2, 3}, the stable descending sort is
the concatenation of the key-3, key-2 and key-1 sublists in input order. -/
theorem sortDescBy_buckets {α : Type} (key : α → Nat) :
    ∀ l : List α, (∀ x ∈ l, key x = 1 ∨ key x = 2 ∨ key x = 3) →
      sortDescBy key l =
        (l.filter (fun x => key x == 3)) ++ (l.filter (fun x => key x == 2))
          ++ (l.filter (fun x => key x == 1)) := by
  intro l
  induction l with
  | nil => intro _; rfl
  | cons x xs ih =>
    intro h
    have hx := h x (by simp)
    have hxs : ∀ y ∈ xs, key y = 1 ∨ key y = 2 ∨ key y = 3 := fun y hy => h y (by simp [hy])
    have hm3 : ∀ y ∈ xs.filter (fun z => key z == 3), key y = 3 := by
      intro y hy; simpa using (List.mem_filter.mp hy).2
    have hm2 : ∀ y ∈ xs.filter (fun z => key z == 2), key y = 2 := by
      intro y hy; simpa using (List.mem_filter.mp hy).2
    have hm1 : ∀ y ∈ xs.filter (fun z => key z == 1), key y = 1 := by
      intro y hy; simpa using (List.mem_filter.mp hy).2
    rw [sortDescBy, ih hxs]
    rcases hx with h1 | h2 | h3
    · rw [insertDescBy_append key x _ _ (by
        intro a ha
        rcases List.mem_append.mp ha with ha3 | ha2
        · rw [h1, hm3 a ha3]; omega
        · rw [h1, hm2 a ha2]; omega)]
      rw [insertDescBy_front key x _ (by intro y hy; rw [h1, hm1 y hy])]
      simp [List.filter, h1]
    · rw [show (xs.filter (fun z => key z == 3)) ++ (xs.filter (fun z => key z == 2))
            ++ (xs.filter (fun z => key z == 1))
          = (xs.filter (fun z => key z == 3)) ++ ((xs.filter (fun z => key z == 2))
            ++ (xs.filter (fun z => key z == 1))) from by simp]
      rw [insertDescBy_append key x _ _ (by intro a ha; rw [h2, hm3 a ha]; omega)]
      rw [insertDescBy_front key x _ (by
        intro y hy
        rcases List.mem_append.mp hy with hy2 | hy1
        · rw [h2, hm2 y hy2]
        · rw [h2, hm1 y hy1]; omega)]
      simp [List.filter, h2]
    · rw [insertDescBy_front key x _ (by
        intro y hy
        rcases List.mem_append.mp hy with hy' | hy1
        · rcases List.mem_append.mp hy' with hy3 | hy2
          · rw [h3, hm3 y hy3]
          · rw [h3, hm2 y hy2]; omega
        · rw [h3, hm1 y hy1]; omega)]
      simp [List.filter, h3]

/-- The high-priority step an auto-fixable high-tier error produces: a
create-component step for a missing component, the navigation step otherwise
(the only other high-tier source). -/
def highStepOf (e : ParsedError) : FixStep :=
  if e.type = ErrorType.missing_component then mkCreateComponentStep e else mkFixNavigationStep

theorem priorityNum_create (e : ParsedError) : priorityNum (mkCreateComponentStep e) = 3 := rfl

theorem priorityNum_dep (e : ParsedError) : priorityNum (mkAddDependencyStep e) = 2 := rfl

theorem priorityNum_nav : priorityNum mkFixNavigationStep = 3 := rfl

theorem priorityNum_manual (e : ParsedError) : priorityNum (mkManualReviewStep e) = 1 := rfl

theorem priorityNum_highStepOf (e : ParsedError) : priorityNum (highStepOf e) = 3 := by
  unfold highStepOf; split <;> rfl

theorem filter3_auto_steps (errors : List ParsedError) :
    ((errors.filter (fun e => e.auto_fixable)).filterMap autoStepFor).filter
        (fun s => priorityNum s == 3)
      = (errors.filter (fun e => e.auto_fixable
          && decide (e.type = ErrorType.missing_component ∨ e.type = ErrorType.navigation_error))).map
          highStepOf := by
  induction errors with
  | nil => rfl
  | cons e rest ih =>
    obtain ⟨t, msg, fp, ln, mm, sf, af⟩ := e
    cases af <;> cases t <;>
      simp_all [autoStepFor, highStepOf, priorityNum_create, priorityNum_dep, priorityNum_nav,
        List.filter_cons, List.filterMap_cons]

theorem filter2_auto_steps (errors : List ParsedError) :
    ((errors.filter (fun e => e.auto_fixable)).filterMap autoStepFor).filter
        (fun s => priorityNum s == 2)
      = (errors.filter (fun e => e.auto_fixable
          && decide (e.type = ErrorType.dependency_error))).map mkAddDependencyStep := by
  induction errors with
  | nil => rfl
  | cons e rest ih =>
    obtain ⟨t, msg, fp, ln, mm, sf, af⟩ := e
    cases af <;> cases t <;>
      simp_all [autoStepFor, priorityNum_create, priorityNum_dep, priorityNum_nav,
        List.filter_cons, List.filterMap_cons]

theorem filter1_auto_steps (errors : List ParsedError) :
    ((errors.filter (fun e => e.auto_fixable)).filterMap autoStepFor).filter
        (fun s => priorityNum s == 1) = [] := by
  rw [List.filter_eq_nil]
  intro s hs
  obtain ⟨e, _, hes⟩ := List.mem_filterMap.mp hs
  unfold autoStepFor at hes
  split at hes
  · cases hes; simp [priorityNum_create]
  · split at hes
    · cases hes; simp [priorityNum_dep]
    · split at hes
      · cases hes; simp [priorityNum_nav]
      · cases hes

theorem filter_manual_steps (errors : List ParsedError) (c : Nat) :
    ((errors.filter (fun e => !e.auto_fixable)).map mkManualReviewStep).filter
        (fun s => priorityNum s == c)
      = if c = 1 then (errors.filter (fun e => !e.auto_fixable)).map mkManualReviewStep
        else [] := by
  split
  · next hc =>
    subst hc
    rw [List.filter_eq_self]
    intro s hs
    obtain ⟨e, _, rfl⟩ := List.mem_map.mp hs
    simp [priorityNum_manual]
  · next hc =>
    rw [List.filter_eq_nil]
    intro s hs
    obtain ⟨e, _, rfl⟩ := List.mem_map.mp hs
    simp [priorityNum_manual]
    omega

theorem genFixSteps_keys (errors : List ParsedError) :
    ∀ s ∈ genFixSteps errors, priorityNum s = 1 ∨ priorityNum s = 2 ∨ priorityNum s = 3 := by
  intro s hs
  rcases List.mem_append.mp hs with hA | hB
  · obtain ⟨e, _, hes⟩ := List.mem_filterMap.mp hA
    unfold autoStepFor at hes
    split at hes
    · cases hes; right; right; exact priorityNum_create e
    · split at hes
      · cases hes; right; left; exact priorityNum_dep e
      · split at hes
        · cases hes; right; right; exact priorityNum_nav
        · cases hes
  · obtain ⟨e, _, rfl⟩ := List.mem_map.mp hB
    left; exact priorityNum_manual e

theorem pairwise_key_const (c : Nat) :
    ∀ l : List FixStep, (∀ x ∈ l, priorityNum x = c) →
      List.Pairwise (fun a b => priorityNum b ≤ priorityNum a) l := by
  intro l
  induction l with
  | nil => intro _; exact List.Pairwise.nil
  | cons x xs ih =>
    intro h
    constructor
    · intro y hy
      rw [h y (by simp [hy]), h x (by simp)]
    · exact ih (fun y hy => h y (by simp [hy]))

/-- C5: the fix plan equals the high-tier steps (one per auto-fixable
missing-component or navigation error, in input order), then the medium-tier
add-dependency steps (one per auto-fixable dependency error, in input order),
then the low-tier manual-review steps (one per not-auto-fixable error, in
input order) — so priorities are non-increasing along the plan and ties keep
the producing errors' relative order — and the plan is pairwise sorted by
non-increasing priority. -/
theorem fix_plan_sorted_and_stable (errors : List ParsedError) :
    generateFixPlan errors =
      ((errors.filter (fun e => e.auto_fixable
          && decide (e.type = ErrorType.missing_component ∨ e.type = ErrorType.navigation_error))).map
          highStepOf)
      ++ ((errors.filter (fun e => e.auto_fixable
          && decide (e.type = ErrorType.dependency_error))).map mkAddDependencyStep)
      ++ ((errors.filter (fun e => !e.auto_fixable)).map mkManualReviewStep)
    ∧ List.Pairwise (fun a b => priorityNum b ≤ priorityNum a) (generateFixPlan errors) := by
  have heq : generateFixPlan errors =
      ((errors.filter (fun e => e.auto_fixable
          && decide (e.type = ErrorType.missing_component ∨ e.type = ErrorType.navigation_error))).map
          highStepOf)
      ++ ((errors.filter (fun e => e.auto_fixable
          && decide (e.type = ErrorType.dependency_error))).map mkAddDependencyStep)
      ++ ((errors.filter (fun e => !e.auto_fixable)).map mkManualReviewStep) := by
    unfold generateFixPlan
    rw [sortDescBy_buckets priorityNum _ (genFixSteps_keys errors)]
    unfold genFixSteps
    rw [List.filter_append, List.filter_append, List.filter_append]
    rw [filter3_auto_steps, filter2_auto_steps, filter1_auto_steps]
    rw [filter_manual_steps errors 3, filter_manual_steps errors 2, filter_manual_steps errors 1]
    simp
  refine ⟨heq, ?_⟩
  rw [heq]
  have hmemH : ∀ s ∈ (errors.filter (fun e => e.auto_fixable
      && decide (e.type = ErrorType.missing_component ∨ e.type = ErrorType.navigation_error))).map
      highStepOf, priorityNum s = 3 := by
    intro s hs
    obtain ⟨e, _, rfl⟩ := List.mem_map.mp hs
    exact priorityNum_highStepOf e
  have hmemD : ∀ s ∈ (errors.filter (fun e => e.auto_fixable
      && decide (e.type = ErrorType.dependency_error))).map mkAddDependencyStep,
      priorityNum s = 2 := by
    intro s hs
    obtain ⟨e, _, rfl⟩ := List.mem_map.mp hs
    exact priorityNum_dep e
  have hmemM : ∀ s ∈ (errors.filter (fun e => !e.auto_fixable)).map mkManualReviewStep,
      priorityNum s = 1 := by
    intro s hs
    obtain ⟨e, _, rfl⟩ := List.mem_map.mp hs
    exact priorityNum_manual e
  rw [List.pairwise_append]
  refine ⟨?_, ?_, ?_⟩
  · rw [List.pairwise_append]
    refine ⟨pairwise_key_const 3 _ hmemH, pairwise_key_const 2 _ hmemD, ?_⟩
    intro a ha b hb
    rw [hmemH a ha, hmemD b hb]
    omega
  · exact pairwise_key_const 1 _ hmemM
  · intro a ha b hb
    rcases List.mem_append.mp ha with haH | haD
    · rw [hmemH a haH, hmemM b hb]; omega
    · rw [hmemD a haD, hmemM b hb]; omega

set_option maxRecDepth 100000 in
set_option maxHeartbeats 1000000 in
/-- C7 counterexample: on an initially empty project, applying the
create-component fix for './Item' twice (each application detecting the app
archetype afresh, as fix_errors_with_components does) reports success both
times but writes different bytes the second time: the file created by the
first application makes _detect_app_type see the "item" indicator (in
"alignItems" and in the component's own name), so the archetype flips from
"generic" to "todo" and the "todoitem" template replaces the generic one. -/
theorem create_component_twice_differs_cex :
    (fixErrorsWithComponents "/tmp/expo_projects/app1" [] none
        [parseSingleError "Unable to resolve module './Item'"]).1
      = [("create_./Item", true)]
    ∧ (fixErrorsWithComponents "/tmp/expo_projects/app1"
        (fixErrorsWithComponents "/tmp/expo_projects/app1" [] none
          [parseSingleError "Unable to resolve module './Item'"]).2.1
        (fixErrorsWithComponents "/tmp/expo_projects/app1" [] none
          [parseSingleError "Unable to resolve module './Item'"]).2.2
        [parseSingleError "Unable to resolve module './Item'"]).1
      = [("create_./Item", true)]
    ∧ getA (fixErrorsWithComponents "/tmp/expo_projects/app1" [] none
          [parseSingleError "Unable to resolve module './Item'"]).2.1
        "/tmp/expo_projects/app1/src/components/Item.js"
      ≠ getA (fixErrorsWithComponents "/tmp/expo_projects/app1"
          (fixErrorsWithComponents "/tmp/expo_projects/app1" [] none
            [parseSingleError "Unable to resolve module './Item'"]).2.1
          (fixErrorsWithComponents "/tmp/expo_projects/app1" [] none
            [parseSingleError "Unable to resolve module './Item'"]).2.2
          [parseSingleError "Unable to resolve module './Item'"]).2.1
        "/tmp/expo_projects/app1/src/components/Item.js" := by
  decide

/-- C7 (amended): applying the same create-component step twice always
reports success both times (the pure model has no filesystem failure), and
the second application writes byte-identical content — indeed leaves the file
tree unchanged — whenever the archetype detected at the second application
equals the one detected at the first; the template output is deterministic in
the component name and the detected archetype, but the first write can change
the detected archetype, in which case the second write may differ. -/
theorem create_component_repeat_success_and_determinism (projectPath : String)
    (fs : List (String × String)) (e : ParsedError) (mm : String)
    (h : e.missing_module = some mm) :
    (createMissingComponent projectPath fs e (detectAppType fs)).1 = true
    ∧ (createMissingComponent projectPath
        (createMissingComponent projectPath fs e (detectAppType fs)).2 e
        (detectAppType (createMissingComponent projectPath fs e (detectAppType fs)).2)).1 = true
    ∧ (detectAppType (createMissingComponent projectPath fs e (detectAppType fs)).2
          = detectAppType fs →
        (createMissingComponent projectPath
          (createMissingComponent projectPath fs e (detectAppType fs)).2 e
          (detectAppType (createMissingComponent projectPath fs e (detectAppType fs)).2)).2
        = (createMissingComponent projectPath fs e (detectAppType fs)).2) := by
  refine ⟨by simp [createMissingComponent, h], by simp [createMissingComponent, h], ?_⟩
  intro heq
  rw [heq]
  simp only [createMissingComponent, h]
  exact setA_idem _ _ fs

/-- C7 witness: a concrete project whose archetype detection is stable (a
"calculator" indicator file comes first in walk order), where the repeated
application is a fixed point. -/
theorem create_component_repeat_witness :
    (createMissingComponent "/p" [("/p/calc.js", "calculator")]
        (parseSingleError "Unable to resolve module './Header'")
        (detectAppType [("/p/calc.js", "calculator")])).1 = true
    ∧ (createMissingComponent "/p"
        (createMissingComponent "/p" [("/p/calc.js", "calculator")]
          (parseSingleError "Unable to resolve module './Header'")
          (detectAppType [("/p/calc.js", "calculator")])).2
        (parseSingleError "Unable to resolve module './Header'")
        (detectAppType (createMissingComponent "/p" [("/p/calc.js", "calculator")]
          (parseSingleError "Unable to resolve module './Header'")
          (detectAppType [("/p/calc.js", "calculator")])).2)).1 = true := by
  have h := create_component_repeat_success_and_determinism "/p"
    [("/p/calc.js", "calculator")]
    (parseSingleError "Unable to resolve module './Header'") "./Header" (by decide)
  exact ⟨h.1, h.2.1⟩

/-- A check outcome whose success flag is false carries an empty error list
(check_snack_errors returns `len(errors) > 0` as the flag). -/
theorem checkSnackErrors_no_errors (o : CheckOutcome) :
    (checkSnackErrors o).1 = false → (checkSnackErrors o).2 = [] := by
  cases o with
  | exc m => simp [checkSnackErrors]
  | resp status comp logs =>
    by_cases hst : status ≠ 200
    · simp [checkSnackErrors, hst]
    · simp only [checkSnackErrors, hst, if_neg, if_false]
      intro h
      have hlen := of_decide_eq_false h
      exact List.length_eq_zero.mp (by omega)

/-- Full case analysis of the polling loop from poll index `i` with `n` polls
left: either some poll reports no errors (success, empty list), or the first
decisive poll reports a non-transport error (failure with the filtered list),
or every remaining poll is transport-only and the loop times out; a
transport-only poll (errors present, all of type "api_error") never
terminates the loop. -/
theorem waitGo_cases (polls : Nat → Bool × List (String × String)) :
    ∀ (n i : Nat),
      (∃ k, i ≤ k ∧ k < i + n ∧ (polls k).1 = false
        ∧ (∀ j, i ≤ j → j < k → (polls j).1 = true ∧ nonApiErrors (polls j).2 = [])
        ∧ waitGo polls n i = (true, []))
      ∨ (∃ k, i ≤ k ∧ k < i + n ∧ (polls k).1 = true ∧ nonApiErrors (polls k).2 ≠ []
        ∧ (∀ j, i ≤ j → j < k → (polls j).1 = true ∧ nonApiErrors (polls j).2 = [])
        ∧ waitGo polls n i = (false, nonApiErrors (polls k).2))
      ∨ ((∀ j, i ≤ j → j < i + n → (polls j).1 = true ∧ nonApiErrors (polls j).2 = [])
        ∧ waitGo polls n i = (false, [timeoutError])) := by
  intro n
  induction n with
  | zero =>
    intro i
    right; right
    exact ⟨fun j hj hjn => absurd hjn (by omega), rfl⟩
  | succ n ih =>
    intro i
    by_cases h1 : (polls i).1 = true
    · by_cases h2 : nonApiErrors (polls i).2 = []
      · have hstep : waitGo polls (n + 1) i = waitGo polls n (i + 1) := by
          simp [waitGo, h1, h2]
        rcases ih (i + 1) with ⟨k, hk1, hk2, hkf, hprev, heq⟩ |
            ⟨k, hk1, hk2, hkt, hkne, hprev, heq⟩ | ⟨hall, heq⟩
        · left
          refine ⟨k, by omega, by omega, hkf, ?_, by rw [hstep]; exact heq⟩
          intro j hj1 hj2
          rcases Nat.eq_or_lt_of_le hj1 with rfl | hj3
          · exact ⟨h1, h2⟩
          · exact hprev j (by omega) hj2
        · right; left
          refine ⟨k, by omega, by omega, hkt, hkne, ?_, by rw [hstep]; exact heq⟩
          intro j hj1 hj2
          rcases Nat.eq_or_lt_of_le hj1 with rfl | hj3
          · exact ⟨h1, h2⟩
          · exact hprev j (by omega) hj2
        · right; right
          refine ⟨?_, by rw [hstep]; exact heq⟩
          intro j hj1 hj2
          rcases Nat.eq_or_lt_of_le hj1 with rfl | hj3
          · exact ⟨h1, h2⟩
          · exact hall j (by omega) (by omega)
      · right; left
        refine ⟨i, le_refl i, by omega, h1, h2, fun j hj1 hj2 => absurd hj2 (by omega), ?_⟩
        simp [waitGo, h1, h2]
    · left
      have h1f : (polls i).1 = false := by
        cases hp : (polls i).1
        · rfl
        · exact absurd hp h1
      refine ⟨i, le_refl i, by omega, h1f, fun j hj1 hj2 => absurd hj2 (by omega), ?_⟩
      simp [waitGo, h1f]

/-- C9: wait_for_deployment returns exactly one of three outcomes — success
with the empty error list when some status poll within the timeout window
reports no errors; failure carrying the first decisive poll's non-transport
(non-"api_error") errors when such a poll reports at least one; or failure
with the single synthetic timeout error when every poll in the window is
transport-only — and a transport-only report never terminates the loop, it
causes another poll. -/
theorem wait_for_deployment_trichotomy (net : Nat → CheckOutcome) (timeout : Nat) :
    (∃ k, k < (timeout + 4) / 5
      ∧ (checkSnackErrors (net k)).1 = false ∧ (checkSnackErrors (net k)).2 = []
      ∧ (∀ j, j < k → (checkSnackErrors (net j)).1 = true
          ∧ nonApiErrors (checkSnackErrors (net j)).2 = [])
      ∧ waitForDeployment (fun i => checkSnackErrors (net i)) timeout = (true, []))
    ∨ (∃ k, k < (timeout + 4) / 5
      ∧ (checkSnackErrors (net k)).1 = true
      ∧ nonApiErrors (checkSnackErrors (net k)).2 ≠ []
      ∧ (∀ j, j < k → (checkSnackErrors (net j)).1 = true
          ∧ nonApiErrors (checkSnackErrors (net j)).2 = [])
      ∧ waitForDeployment (fun i => checkSnackErrors (net i)) timeout
          = (false, nonApiErrors (checkSnackErrors (net k)).2))
    ∨ ((∀ j, j < (timeout + 4) / 5 → (checkSnackErrors (net j)).1 = true
          ∧ nonApiErrors (checkSnackErrors (net j)).2 = [])
        ∧ waitForDeployment (fun i => checkSnackErrors (net i)) timeout
            = (false, [timeoutError])) := by
  rcases waitGo_cases (fun i => checkSnackErrors (net i)) ((timeout + 4) / 5) 0 with
      ⟨k, _, hk2, hkf, hprev, heq⟩ | ⟨k, _, hk2, hkt, hkne, hprev, heq⟩ | ⟨hall, heq⟩
  · left
    exact ⟨k, by omega, hkf, checkSnackErrors_no_errors (net k) hkf,
      fun j hj => hprev j (by omega) hj, heq⟩
  · right; left
    exact ⟨k, by omega, hkt, hkne, fun j hj => hprev j (by omega) hj, heq⟩
  · right; right
    exact ⟨fun j hj => hall j (by omega) (by omega), heq⟩

/-- A successful wait (with the pipeline's fixed 60-second timeout) requires
some poll among the twelve in the window to have reported success = no
errors. -/
theorem waitForDeployment_success_fst (polls : Nat → Bool × List (String × String)) :
    (waitForDeployment polls 60).1 = true → ∃ k, k < 12 ∧ (polls k).1 = false := by
  intro h
  have h12 : waitForDeployment polls 60 = waitGo polls 12 0 := rfl
  rcases waitGo_cases polls 12 0 with ⟨k, _, hk2, hkf, _, heq⟩ |
      ⟨k, _, _, _, _, _, heq⟩ | ⟨_, heq⟩
  · exact ⟨k, by omega, hkf⟩
  · rw [h12, heq] at h; simp at h
  · rw [h12, heq] at h; simp at h

/-- The attempt counter the loop records never passes the last attempt
number the fuel allows. -/
theorem deployGo_attempts_le (name pp : String) (env : Nat → AttemptEnv) :
    ∀ (n attempt : Nat) (r : DeploymentResult) fs pkg, r.attempts ≤ attempt - 1 →
      (deployGo name pp env n attempt r fs pkg).1.attempts ≤ attempt + n - 1 := by
  intro n
  induction n with
  | zero =>
    intro attempt r fs pkg h
    simp only [deployGo]
    omega
  | succ n ih =>
    intro attempt r fs pkg h
    simp only [deployGo]
    split_ifs with hg hs hw ha hf
    · exact (ih (attempt + 1) _ fs pkg (by simp)).trans (by omega)
    · exact (ih (attempt + 1) _ fs pkg (by simp)).trans (by omega)
    · have hb : attempt ≤ attempt + (n + 1) - 1 := by omega
      simpa using hb
    · have hb : attempt ≤ attempt + (n + 1) - 1 := by omega
      simpa using hb
    · have hb : attempt ≤ attempt + (n + 1) - 1 := by omega
      simpa using hb
    · exact (ih (attempt + 1) _ _ _ (by simp)).trans (by omega)

/-- The loop reports success only when some attempt's sandbox wait succeeded,
which in turn requires a poll with no errors reported. -/
theorem deployGo_success_source (name pp : String) (env : Nat → AttemptEnv) :
    ∀ (n attempt : Nat) (r : DeploymentResult) fs pkg,
      (deployGo name pp env n attempt r fs pkg).1.success = true →
      r.success = true ∨ ∃ i k, attempt ≤ i ∧ i < attempt + n ∧ k < 12 ∧
        checkSnackErrors ((env i).checkNet k) = (false, []) := by
  intro n
  induction n with
  | zero =>
    intro attempt r fs pkg h
    left
    simpa [deployGo] using h
  | succ n ih =>
    intro attempt r fs pkg h
    simp only [deployGo] at h
    split_ifs at h with hg hs hw ha hf
    · rcases ih (attempt + 1) _ fs pkg h with hr | ⟨i, k, hi1, hi2, hk, hc⟩
      · left; simpa using hr
      · right; exact ⟨i, k, by omega, by omega, hk, hc⟩
    · rcases ih (attempt + 1) _ fs pkg h with hr | ⟨i, k, hi1, hi2, hk, hc⟩
      · left; simpa using hr
      · right; exact ⟨i, k, by omega, by omega, hk, hc⟩
    · right
      obtain ⟨k, hk12, hkf⟩ := waitForDeployment_success_fst _ hw
      refine ⟨attempt, k, le_refl attempt, by omega, hk12, ?_⟩
      exact Prod.ext_iff.mpr ⟨hkf, checkSnackErrors_no_errors _ hkf⟩
    · left; simpa using h
    · left; simpa using h
    · rcases ih (attempt + 1) _ _ _ h with hr | ⟨i, k, hi1, hi2, hk, hc⟩
      · left; simpa using hr
      · right; exact ⟨i, k, by omega, by omega, hk, hc⟩

/-- C1: for any run with max attempts = N, the attempt counter recorded in
the final DeploymentResult is at most N, and the result's success flag is
true only if during some attempt (between 1 and N) a sandbox status poll
reported zero errors — success is set on no other path. -/
theorem orchestrator_attempt_bound_and_success_source (name pp : String) (maxA : Nat)
    (env : Nat → AttemptEnv) (fs : List (String × String)) (pkg : Option PackageJson) :
    (deployProjectWithAutoFix name pp maxA env fs pkg).1.attempts ≤ maxA
    ∧ ((deployProjectWithAutoFix name pp maxA env fs pkg).1.success = true →
        ∃ i k, 1 ≤ i ∧ i ≤ maxA ∧ k < 12
          ∧ checkSnackErrors ((env i).checkNet k) = (false, [])) := by
  constructor
  · have h := deployGo_attempts_le name pp env maxA 1 { success := false } fs pkg (by simp)
    unfold deployProjectWithAutoFix
    omega
  · intro h
    unfold deployProjectWithAutoFix at h
    rcases deployGo_success_source name pp env maxA 1 { success := false } fs pkg h with
        hr | ⟨i, k, hi1, hi2, hk, hc⟩
    · simp at hr
    · exact ⟨i, k, hi1, by omega, hk, hc⟩

/-- When the publisher fails on every attempt the loop can reach, the run
only ticks the attempt counter: nothing after the publish stage executes. -/
theorem deployGo_gh_fail_range (name pp : String) (env : Nat → AttemptEnv) :
    ∀ (n attempt : Nat) (r : DeploymentResult) fs pkg,
      (∀ i, attempt ≤ i → i < attempt + n → ((env i).github).1 = false) →
      deployGo name pp env n attempt r fs pkg
        = ((if n = 0 then r else { r with attempts := attempt + n - 1 }), fs, pkg) := by
  intro n
  induction n with
  | zero =>
    intro attempt r fs pkg _
    simp [deployGo]
  | succ n ih =>
    intro attempt r fs pkg h
    obtain ⟨rs, ru, rsu, rsi, rerr, rfx, rat⟩ := r
    have hg := h attempt (le_refl attempt) (by omega)
    simp only [deployGo, hg, Bool.not_false, if_true]
    rw [ih (attempt + 1) _ fs pkg (fun i h1 h2 => h i (by omega) (by omega))]
    cases n with
    | zero => simp
    | succ m =>
      have harith : attempt + 1 + (m + 1) - 1 = attempt + (m + 1 + 1) - 1 := by omega
      simp [harith]

/-- A sandbox creation from the empty URL always fails with the invalid-URL
error: the github.com pattern cannot match the empty string. -/
theorem createSnack_empty_url (nm : String) (net : SnackCreateOutcome) :
    createSnackFromGithub "" nm net = (false, { error := some "Invalid GitHub URL format" }) := rfl

/-- One iteration under a no-changes publish: the repository URL is recorded
empty, sandbox creation fails at once on it, and the loop retries. -/
theorem deployGo_nochanges_step (name pp : String) (env : Nat → AttemptEnv)
    (n attempt : Nat) (r : DeploymentResult) (fs : List (String × String))
    (pkg : Option PackageJson) (hg : (env attempt).github = (true, noChangesResult)) :
    deployGo name pp env (n + 1) attempt r fs pkg
      = deployGo name pp env n (attempt + 1)
          { r with attempts := attempt, github_url := "" } fs pkg := by
  obtain ⟨rs, ru, rsu, rsi, rerr, rfx, rat⟩ := r
  simp [deployGo, hg, noChangesResult, createSnack_empty_url]

/-- When the publisher reports the no-changes success on every attempt the
loop can reach, each attempt records the empty repository URL, sandbox
creation fails on it at once, and the loop only ticks the counter. -/
theorem deployGo_nochanges_range (name pp : String) (env : Nat → AttemptEnv) :
    ∀ (n attempt : Nat) (r : DeploymentResult) fs pkg,
      (∀ i, attempt ≤ i → i < attempt + n → (env i).github = (true, noChangesResult)) →
      deployGo name pp env n attempt r fs pkg
        = ((if n = 0 then r
            else { r with attempts := attempt + n - 1, github_url := "" }), fs, pkg) := by
  intro n
  induction n with
  | zero =>
    intro attempt r fs pkg _
    simp [deployGo]
  | succ n ih =>
    intro attempt r fs pkg h
    rw [deployGo_nochanges_step name pp env n attempt r fs pkg
      (h attempt (le_refl attempt) (by omega))]
    rw [ih (attempt + 1) _ fs pkg (fun i h1 h2 => h i (by omega) (by omega))]
    obtain ⟨rs, ru, rsu, rsi, rerr, rfx, rat⟩ := r
    cases n with
    | zero => simp
    | succ m =>
      have harith : attempt + 1 + (m + 1) - 1 = attempt + (m + 1 + 1) - 1 := by omega
      simp [harith]

/-- C6: if the publish stage fails on each of the 3 attempts of a
max-attempts-3 run, the final result has success = false, attempts = 3, and
the sandbox URL and id were never set (no sandbox was contacted). -/
theorem publish_fail_three_attempts (name pp : String) (env : Nat → AttemptEnv)
    (fs : List (String × String)) (pkg : Option PackageJson)
    (h : ∀ i, 1 ≤ i → i ≤ 3 → ((env i).github).1 = false) :
    (deployProjectWithAutoFix name pp 3 env fs pkg).1.success = false
    ∧ (deployProjectWithAutoFix name pp 3 env fs pkg).1.attempts = 3
    ∧ (deployProjectWithAutoFix name pp 3 env fs pkg).1.snack_url = ""
    ∧ (deployProjectWithAutoFix name pp 3 env fs pkg).1.snack_id = "" := by
  unfold deployProjectWithAutoFix
  rw [deployGo_gh_fail_range name pp env 3 1 _ fs pkg (fun i h1 h2 => h i h1 (by omega))]
  simp

/-- C6 witness: a concrete environment whose publisher always fails. -/
theorem publish_fail_three_attempts_witness :
    (deployProjectWithAutoFix "app1" "/tmp/expo_projects/app1" 3
        (fun _ => { github := (false, { error := some "Deployment failed: boom" }),
                    snackNet := .resp 200 none,
                    checkNet := fun _ => .resp 200 [] [] })
        [] none).1.success = false
    ∧ (deployProjectWithAutoFix "app1" "/tmp/expo_projects/app1" 3
        (fun _ => { github := (false, { error := some "Deployment failed: boom" }),
                    snackNet := .resp 200 none,
                    checkNet := fun _ => .resp 200 [] [] })
        [] none).1.attempts = 3
    ∧ (deployProjectWithAutoFix "app1" "/tmp/expo_projects/app1" 3
        (fun _ => { github := (false, { error := some "Deployment failed: boom" }),
                    snackNet := .resp 200 none,
                    checkNet := fun _ => .resp 200 [] [] })
        [] none).1.snack_url = ""
    ∧ (deployProjectWithAutoFix "app1" "/tmp/expo_projects/app1" 3
        (fun _ => { github := (false, { error := some "Deployment failed: boom" }),
                    snackNet := .resp 200 none,
                    checkNet := fun _ => .resp 200 [] [] })
        [] none).1.snack_id = "" :=
  publish_fail_three_attempts "app1" "/tmp/expo_projects/app1"
    (fun _ => { github := (false, { error := some "Deployment failed: boom" }),
                snackNet := .resp 200 none,
                checkNet := fun _ => .resp 200 [] [] })
    [] none (fun i h1 h2 => rfl)

/-- C10: when the publisher reports the no-changes success (whose result
dictionary has no repository_url key) on every attempt of the run, the
orchestrator records the empty string as the repository URL, sandbox creation
from the empty URL always fails with "Invalid GitHub URL format", and hence
no attempt ever reaches the sandbox or succeeds: the final result has
success = false and empty sandbox URL and id. -/
theorem nochanges_publish_never_reaches_sandbox (name pp : String) (maxA : Nat)
    (env : Nat → AttemptEnv) (fs : List (String × String)) (pkg : Option PackageJson)
    (h : ∀ i, 1 ≤ i → i ≤ maxA → (env i).github = (true, noChangesResult)) :
    (∀ (nm : String) (net : SnackCreateOutcome),
        createSnackFromGithub "" nm net = (false, { error := some "Invalid GitHub URL format" }))
    ∧ (deployProjectWithAutoFix name pp maxA env fs pkg).1.success = false
    ∧ (deployProjectWithAutoFix name pp maxA env fs pkg).1.snack_url = ""
    ∧ (deployProjectWithAutoFix name pp maxA env fs pkg).1.snack_id = "" := by
  refine ⟨fun nm net => rfl, ?_⟩
  unfold deployProjectWithAutoFix
  rw [deployGo_nochanges_range name pp env maxA 1 _ fs pkg (fun i h1 h2 => h i h1 (by omega))]
  by_cases hm : maxA = 0 <;> simp [hm]

/-- C10 witness: a concrete environment whose publisher always reports the
no-changes success. -/
theorem nochanges_publish_witness :
    (∀ (nm : String) (net : SnackCreateOutcome),
        createSnackFromGithub "" nm net = (false, { error := some "Invalid GitHub URL format" }))
    ∧ (deployProjectWithAutoFix "app1" "/tmp/expo_projects/app1" 3
        (fun _ => { github := (true, noChangesResult),
                    snackNet := .resp 200 none,
                    checkNet := fun _ => .resp 200 [] [] })
        [] none).1.success = false
    ∧ (deployProjectWithAutoFix "app1" "/tmp/expo_projects/app1" 3
        (fun _ => { github := (true, noChangesResult),
                    snackNet := .resp 200 none,
                    checkNet := fun _ => .resp 200 [] [] })
        [] none).1.snack_url = ""
    ∧ (deployProjectWithAutoFix "app1" "/tmp/expo_projects/app1" 3
        (fun _ => { github := (true, noChangesResult),
                    snackNet := .resp 200 none,
                    checkNet := fun _ => .resp 200 [] [] })
        [] none).1.snack_id = "" :=
  nochanges_publish_never_reaches_sandbox "app1" "/tmp/expo_projects/app1" 3
    (fun _ => { github := (true, noChangesResult),
                snackNet := .resp 200 none,
                checkNet := fun _ => .resp 200 [] [] })
    [] none (fun i h1 h2 => rfl)
